import Mathlib

/-!
Verification of the asteroids game simulation core (`src/lib.rs`).

The simulation works on 2-D float vectors; the embedding models the float
components as rationals (exact arithmetic), and states properties that the
source phrases through `length()` (a square root) over the reals, deriving
them from the squared form.  Randomness (`rand::random`) is external input
and is modelled as explicit streams of drawn values.
-/

namespace Asteroids

/-- 2-D vector (`bevy::math::Vec2`); float components embedded as rationals. -/
structure Vec2 where
  x : ℚ
  y : ℚ
deriving DecidableEq, Repr

instance : Add Vec2 := ⟨fun a b => ⟨a.x + b.x, a.y + b.y⟩⟩

instance : Sub Vec2 := ⟨fun a b => ⟨a.x - b.x, a.y - b.y⟩⟩

/-- Scalar multiple `c * v` (glam's `Vec2 * f32`). -/
def Vec2.smul (c : ℚ) (v : Vec2) : Vec2 := ⟨c * v.x, c * v.y⟩

/-- `Vec2::ZERO`. -/
def Vec2.zero : Vec2 := ⟨0, 0⟩

/-- Squared Euclidean length of a vector.  glam's `Vec2::length()` is the
square root of this; comparisons of `length()` against a nonnegative bound
are stated below through `Real.sqrt` of this quantity. -/
def normSq (v : Vec2) : ℚ := v.x * v.x + v.y * v.y

/- Constants of `src/lib.rs` (lines 16–28). -/

def VIEWPORT_WIDTH : ℚ := 1280

def VIEWPORT_HEIGHT : ℚ := 720

def ASTEROID_VELOCITY : ℚ := 2

def BULLET_VELOCITY : ℚ := 6

def BULLET_DISTANCE : ℚ := VIEWPORT_HEIGHT * (8 / 10)

def STARSHIP_ACCELERATION : ℚ := 2 / 10

def STARSHIP_DECELERATION : ℚ := 1 / 100

def STARSHIP_MAX_VELOCITY : ℚ := 10

/-- `ScreenBounds` resource: live half-extents of the play field. -/
structure ScreenBounds where
  half_width : ℚ
  half_height : ℚ
deriving DecidableEq, Repr

/-- `ScreenBounds::default()`: fallback before the first window update. -/
def ScreenBounds.fallback : ScreenBounds := ⟨640, 360⟩

/-- `Vec3::max_element()` of a transform scale triple. -/
def maxElement3 (s : ℚ × ℚ × ℚ) : ℚ := max s.1 (max s.2.1 s.2.2)

/-- `update_position` (lib.rs 405–432) for one entity: Euler step
`position + velocity`, then an independent wrap on each axis.  `scale` is
the entity's `Transform` scale triple; `half_scale` is half its largest
element, exactly as in the source. -/
def update_position (bounds : ScreenBounds) (scale : ℚ × ℚ × ℚ)
    (position velocity : Vec2) : Vec2 :=
  let min_x := -bounds.half_width
  let max_x := bounds.half_width
  let min_y := -bounds.half_height
  let max_y := bounds.half_height
  let np := position + velocity
  let half_scale := maxElement3 scale / 2
  let nx :=
    if np.x > max_x + half_scale then min_x - half_scale
    else if np.x < min_x - half_scale then max_x + half_scale
    else np.x
  let ny :=
    if np.y > max_y + half_scale then min_y - half_scale
    else if np.y < min_y - half_scale then max_y + half_scale
    else np.y
  ⟨nx, ny⟩

/-- Native keyboard state read by the systems (`ButtonInput<KeyCode>`),
restricted to the keys the game reads. -/
structure KeyboardState where
  arrow_left : Bool
  arrow_right : Bool
  arrow_up : Bool
  space_just_pressed : Bool
deriving DecidableEq, Repr

/-- `MobileInputState` resource (lib.rs 120–126); absent (`none`) on native
builds, where the `Option<Res<MobileInputState>>` system parameter is `None`. -/
structure MobileInputState where
  left : Bool
  right : Bool
  up : Bool
  fire_just_pressed : Bool
deriving DecidableEq, Repr

/-- Merged `up_pressed` signal of `keyboard_events` (lib.rs 450–451):
`keys.pressed(ArrowUp) || mobile.map_or(false, |m| m.up)`. -/
def up_pressed (keys : KeyboardState) (mobile : Option MobileInputState) : Bool :=
  keys.arrow_up ||
    match mobile with
    | some m => m.up
    | none => false

/-- Merged `left_pressed` signal of `keyboard_events` (lib.rs 444–445). -/
def left_pressed (keys : KeyboardState) (mobile : Option MobileInputState) : Bool :=
  keys.arrow_left ||
    match mobile with
    | some m => m.left
    | none => false

/-- Merged `right_pressed` signal of `keyboard_events` (lib.rs 447–448). -/
def right_pressed (keys : KeyboardState) (mobile : Option MobileInputState) : Bool :=
  keys.arrow_right ||
    match mobile with
    | some m => m.right
    | none => false

/-- Merged `fire_just_pressed` signal of `keyboard_events` (lib.rs 453–454). -/
def fire_just_pressed (keys : KeyboardState) (mobile : Option MobileInputState) : Bool :=
  keys.space_just_pressed ||
    match mobile with
    | some m => m.fire_just_pressed
    | none => false

/-- `decelerate_starship` (lib.rs 554–563) for one starship velocity.
Its guard reads only the native keyboard (`!keys.pressed(KeyCode::ArrowUp)`);
the merged virtual input is not consulted. -/
def decelerate_starship (kb_up : Bool) (velocity : Vec2) : Vec2 :=
  if kb_up then velocity
  else Vec2.smul (1 - STARSHIP_DECELERATION) velocity

/-- A live bullet as read by `remove_bullet`: its spawn point `start` and its
current `Position`. -/
structure BulletB where
  start : Vec2
  position : Vec2
deriving DecidableEq, Repr

/-- The range test of `remove_bullet` (lib.rs 548):
`(bullet.start - position).length() > BULLET_DISTANCE`.  The comparison of the
float `length()` is encoded squared, which is equivalent because both sides
are nonnegative (`remove_bullet_iff` states the square-root form). -/
def bullet_out_of_range (b : BulletB) : Bool :=
  decide (BULLET_DISTANCE ^ 2 < normSq (b.start - b.position))

/-- `remove_bullet` (lib.rs 543–552): the bullets despawned this tick are
exactly those whose traveled distance from their spawn point exceeds
`BULLET_DISTANCE`. -/
def remove_bullet (bullets : List BulletB) : List BulletB :=
  bullets.filter bullet_out_of_range

/-- glam `Vec2::normalize_or_zero`, used by the thrust clamp (lib.rs 469):
the zero vector maps to the zero vector, a nonzero vector to the unit vector
in its direction.  The unit vector's components are irrational in general, so
the operation is embedded as a relation between the rational input and its
real-valued result. -/
def normalize_or_zero (v : Vec2) (w : ℝ × ℝ) : Prop :=
  (v = Vec2.zero ∧ w = (0, 0)) ∨
  (v ≠ Vec2.zero ∧
    w = ((v.x : ℝ) / Real.sqrt ((normSq v : ℝ)),
         (v.y : ℝ) / Real.sqrt ((normSq v : ℝ))))

/-- glam `Vec2::normalize` on a rational vector, used for the asteroid spawn
velocity direction (lib.rs 369, 619, 669): `v * (1 / v.length())`.  On the
zero vector the reciprocal length is infinite and `0 * ∞` makes every
component NaN; the NaN outcome is embedded as `none`, a defined result as
`some` of the real-valued unit vector. -/
def glam_normalize (v : Vec2) (r : Option (ℝ × ℝ)) : Prop :=
  (v = Vec2.zero ∧ r = none) ∨
  (v ≠ Vec2.zero ∧
    r = some ((v.x : ℝ) / Real.sqrt ((normSq v : ℝ)),
              (v.y : ℝ) / Real.sqrt ((normSq v : ℝ))))

/-- glam `Vec2::normalize` on a real vector, used for the bullet spawn
direction (lib.rs 480): same NaN-on-zero semantics as `glam_normalize`. -/
def glam_normalize_r (v : ℝ × ℝ) (r : Option (ℝ × ℝ)) : Prop :=
  (v = (0, 0) ∧ r = none) ∨
  (v ≠ (0, 0) ∧
    r = some (v.1 / Real.sqrt (v.1 * v.1 + v.2 * v.2),
              v.2 / Real.sqrt (v.1 * v.1 + v.2 * v.2)))

/-- `Starship::direction` (lib.rs 274–279): the unit vector
`(cos(rotation_angle + π/2), sin(rotation_angle + π/2))` from `sin_cos`.
Embedded as a relation because sine and cosine of a real angle are
irrational in general. -/
def starship_direction (rotation_angle : ℝ) (d : ℝ × ℝ) : Prop :=
  d = (Real.cos (rotation_angle + Real.pi / 2),
       Real.sin (rotation_angle + Real.pi / 2))

/-- Velocity given to a spawned asteroid (lib.rs 369, 619, 669–676):
`p.normalize() * ASTEROID_VELOCITY` where `p` is the random point drawn by
`get_random_point`.  A NaN direction (`none`) propagates through the scalar
multiplication into the stored velocity. -/
def asteroid_spawn_velocity (p : Vec2) (r : Option (ℝ × ℝ)) : Prop :=
  (∃ d : ℝ × ℝ, glam_normalize p (some d) ∧
    r = some ((ASTEROID_VELOCITY : ℝ) * d.1, (ASTEROID_VELOCITY : ℝ) * d.2)) ∨
  (glam_normalize p none ∧ r = none)

/-- The clamp branch of the thrust step (lib.rs 468–470), on the velocity to
which the thrust increment has already been added: if
`velocity.length() > STARSHIP_MAX_VELOCITY` the velocity becomes
`velocity.normalize_or_zero() * STARSHIP_MAX_VELOCITY`, otherwise it is left
unchanged.  Relation between the rational pre-clamp velocity and the
real-valued post-clamp velocity. -/
def clamp_velocity (v : Vec2) (w : ℝ × ℝ) : Prop :=
  (Real.sqrt ((normSq v : ℝ)) > (STARSHIP_MAX_VELOCITY : ℝ) ∧
    ∃ u : ℝ × ℝ, normalize_or_zero v u ∧
      w = ((STARSHIP_MAX_VELOCITY : ℝ) * u.1, (STARSHIP_MAX_VELOCITY : ℝ) * u.2)) ∨
  (¬ Real.sqrt ((normSq v : ℝ)) > (STARSHIP_MAX_VELOCITY : ℝ) ∧
    w = ((v.x : ℝ), (v.y : ℝ)))

/-- `AsteroidSize` (lib.rs 248–253). -/
inductive AsteroidSize
  | Big
  | Medium
  | Small
deriving DecidableEq, Repr

/-- `AsteroidSize::scale` (lib.rs 255–263). -/
def AsteroidSize.scale : AsteroidSize → ℚ
  | .Big => 100
  | .Medium => 65
  | .Small => 30

/-- The `asteroid_new_size` computation of `detect_bullet_asteroid_collision`
(lib.rs 606–610): the next tier down, `none` for `Small`. -/
def asteroid_new_size : AsteroidSize → Option AsteroidSize
  | .Big => some .Medium
  | .Medium => some .Small
  | .Small => none

/-- A live bullet as read by the collision system: `Position` and `Transform`
scale triple. -/
structure BulletC where
  position : Vec2
  scale : ℚ × ℚ × ℚ
deriving DecidableEq, Repr

/-- A live asteroid as read by the collision system: size tier, `Position`
and `Transform` scale triple. -/
structure AsteroidC where
  size : AsteroidSize
  position : Vec2
  scale : ℚ × ℚ × ℚ
deriving DecidableEq, Repr

/-- The deferred `Commands` issued by `detect_bullet_asteroid_collision`.  A
spawn records the child's size, its position and the random point drawn for
its velocity direction (the stored velocity is `asteroid_spawn_velocity` of
that draw). -/
inductive Cmd
  | despawn_bullet (b : BulletC)
  | despawn_asteroid (a : AsteroidC)
  | spawn_asteroid (size : AsteroidSize) (position : Vec2) (velocity_draw : Vec2)
deriving DecidableEq, Repr

/-- The hit test of `detect_bullet_asteroid_collision` (lib.rs 597–601):
`distance < bullet_size / 2 + asteroid_size / 2`, the sizes being the largest
elements of the two transform scales.  The float `length()` comparison is
encoded squared; `bullet_asteroid_hit_outcome` states the square-root form. -/
def bullet_asteroid_hit (b : BulletC) (a : AsteroidC) : Bool :=
  decide (normSq (b.position - a.position) <
    (maxElement3 b.scale / 2 + maxElement3 a.scale / 2) ^ 2)

/-- The consequence of one bullet–asteroid hit (lib.rs 601–630): despawn the
bullet and the asteroid; if the asteroid is not `Small`, spawn two children of
the next tier down at the destroyed asteroid's position, with `d1`, `d2` the
random points drawn for their velocity directions. -/
def hit_commands (b : BulletC) (a : AsteroidC) (d1 d2 : Vec2) : List Cmd :=
  [Cmd.despawn_bullet b, Cmd.despawn_asteroid a] ++
    match asteroid_new_size a.size with
    | some ns =>
      [Cmd.spawn_asteroid ns a.position d1, Cmd.spawn_asteroid ns a.position d2]
    | none => []

/-- Inner loop of `detect_bullet_asteroid_collision` (lib.rs 596–632): one
bullet against each asteroid.  `rng k` is the k-th random point drawn this
tick and `k` the index of the next unused draw; a hit on a non-Small asteroid
consumes two draws. -/
def bullet_row (rng : ℕ → Vec2) (b : BulletC) :
    List AsteroidC → ℕ → List Cmd × ℕ
  | [], k => ([], k)
  | a :: rest, k =>
    if bullet_asteroid_hit b a then
      let consumed : ℕ :=
        match asteroid_new_size a.size with
        | some _ => 2
        | none => 0
      let t := bullet_row rng b rest (k + consumed)
      (hit_commands b a (rng k) (rng (k + 1)) ++ t.1, t.2)
    else
      bullet_row rng b rest k

/-- Outer loop of `detect_bullet_asteroid_collision` (lib.rs 595–633). -/
def bullet_loop (rng : ℕ → Vec2) :
    List BulletC → List AsteroidC → ℕ → List Cmd × ℕ
  | [], _, k => ([], k)
  | b :: rest, asteroids, k =>
    let r := bullet_row rng b asteroids k
    let t := bullet_loop rng rest asteroids r.2
    (r.1 ++ t.1, t.2)

/-- `detect_bullet_asteroid_collision` (lib.rs 586–633): all despawn and
spawn commands emitted in one tick. -/
def detect_bullet_asteroid_collision (rng : ℕ → Vec2) (bullets : List BulletC)
    (asteroids : List AsteroidC) : List Cmd :=
  (bullet_loop rng bullets asteroids 0).1

/-- A starship record as spawned by `setup`/`reset_game`. -/
structure StarshipE where
  rotation_angle : ℚ
  position : Vec2
  velocity : Vec2
deriving DecidableEq, Repr

/-- An asteroid record as spawned by `reset_game`: size tier, position, and
the random point drawn for its velocity direction (the stored velocity is
`asteroid_spawn_velocity` of that draw). -/
structure AsteroidE where
  size : AsteroidSize
  position : Vec2
  velocity_draw : Vec2
deriving DecidableEq, Repr

/-- The gameplay contents of the entity store: every live Starship, Bullet
and Asteroid. -/
structure Store where
  starships : List StarshipE
  bullets : List BulletB
  asteroids : List AsteroidE
deriving DecidableEq, Repr

/-- `get_random_point` (lib.rs 331–336): maps two `rand::random::<f32>()`
draws from `[0, 1)` to a point inside the current bounds. -/
def get_random_point (bounds : ScreenBounds) (r1 r2 : ℚ) : Vec2 :=
  ⟨(r1 * 2 - 1) * bounds.half_width, (r2 * 2 - 1) * bounds.half_height⟩

/-- `reset_game` (lib.rs 635–684).  `signals` is this tick's pending
`ResetGame` message queue and `rng n` the n-th `rand::random::<f32>()` draw.
With no pending message the store is untouched; otherwise every Starship,
Bullet and Asteroid is despawned, one fresh starship is spawned at the origin
with zero rotation and velocity, and six Big asteroids are spawned at random
positions, each recording the random point drawn for its velocity
direction. -/
def reset_game (signals : List Unit) (bounds : ScreenBounds) (rng : ℕ → ℚ)
    (store : Store) : Store :=
  match signals with
  | [] => store
  | _ :: _ =>
    { starships := [⟨0, Vec2.zero, Vec2.zero⟩]
      bullets := []
      asteroids :=
        (List.range 6).map fun i =>
          ⟨AsteroidSize.Big,
           get_random_point bounds (rng (4 * i)) (rng (4 * i + 1)),
           get_random_point bounds (rng (4 * i + 2)) (rng (4 * i + 3))⟩ }

/-- The eleven systems registered in the `Update` schedule (lib.rs 175–190),
as an enumeration. -/
inductive Sys
  | update_screen_bounds
  | keyboard_events
  | decelerate_starship
  | remove_bullet
  | update_position
  | sync_translate_transform
  | sync_asteroid_scale_transform
  | sync_starship_rotation_transform
  | detect_starship_asteroid_collision
  | detect_bullet_asteroid_collision
  | reset_game
deriving DecidableEq, BEq, Repr

/-- The tuple passed to `add_systems(Update, ...)` (lib.rs 175–190), in
registration order. -/
def updateSystems : List Sys :=
  [.update_screen_bounds, .keyboard_events, .decelerate_starship,
   .remove_bullet, .update_position, .sync_translate_transform,
   .sync_asteroid_scale_transform, .sync_starship_rotation_transform,
   .detect_starship_asteroid_collision, .detect_bullet_asteroid_collision,
   .reset_game]

/-- The explicit ordering constraints declared on the `Update` schedule: the
single `.after(update_position)` on `sync_translate_transform` (lib.rs 183).
Bevy's `add_systems` with a plain tuple adds the systems with NO ordering
between them — ordering comes only from explicit `.before`/`.after`/`.chain`
constraints — so this list is the schedule's entire ordering contract. -/
def updateConstraints : List (Sys × Sys) :=
  [(.update_position, .sync_translate_transform)]

/-- `l` is an execution order Bevy's scheduler may choose for one tick of the
`Update` schedule: a permutation of the registered systems (each system runs
exactly once) in which every declared constraint `(a, b)` places `a` before
`b` (positions compared through `indexOf`, well-defined because an execution
order has no duplicates). -/
def validExecutionOrder (l : List Sys) : Prop :=
  l.Perm updateSystems ∧
    ∀ c ∈ updateConstraints, l.indexOf c.1 < l.indexOf c.2

/-- An execution order permitted by the declared constraints in which both
collision checks and the reset run before input processing and motion
integration, and motion integration runs before input processing. -/
def badOrder : List Sys :=
  [.detect_starship_asteroid_collision, .detect_bullet_asteroid_collision,
   .reset_game, .update_screen_bounds, .decelerate_starship, .remove_bullet,
   .update_position, .sync_translate_transform,
   .sync_asteroid_scale_transform, .sync_starship_rotation_transform,
   .keyboard_events]

/-! ## Theorems -/

theorem normSq_nonneg (v : Vec2) : 0 ≤ normSq v :=
  add_nonneg (mul_self_nonneg _) (mul_self_nonneg _)

theorem normSq_smul (c : ℚ) (v : Vec2) :
    normSq (Vec2.smul c v) = c * c * normSq v := by
  simp only [normSq, Vec2.smul]
  ring

@[simp] theorem Vec2.add_def (a b : Vec2) : a + b = ⟨a.x + b.x, a.y + b.y⟩ := rfl

@[simp] theorem Vec2.sub_def (a b : Vec2) : a - b = ⟨a.x - b.x, a.y - b.y⟩ := rfl

/-- C6: one integration step moves the entity to `position + velocity`; on
each axis independently, a coordinate that exceeds `half_extent + half_scale`
wraps to exactly `-half_extent - half_scale`, a coordinate below
`-half_extent - half_scale` wraps to exactly `half_extent + half_scale`, and
a coordinate inside the band is left at `position + velocity`, where
`half_scale` is half the largest element of the entity's transform scale. -/
theorem update_position_wraps (bounds : ScreenBounds) (scale : ℚ × ℚ × ℚ)
    (position velocity : Vec2)
    (hw : 0 ≤ bounds.half_width) (hh : 0 ≤ bounds.half_height)
    (hs : 0 ≤ maxElement3 scale) :
    ((position + velocity).x > bounds.half_width + maxElement3 scale / 2 →
      (update_position bounds scale position velocity).x =
        -bounds.half_width - maxElement3 scale / 2) ∧
    ((position + velocity).x < -bounds.half_width - maxElement3 scale / 2 →
      (update_position bounds scale position velocity).x =
        bounds.half_width + maxElement3 scale / 2) ∧
    ((position + velocity).y > bounds.half_height + maxElement3 scale / 2 →
      (update_position bounds scale position velocity).y =
        -bounds.half_height - maxElement3 scale / 2) ∧
    ((position + velocity).y < -bounds.half_height - maxElement3 scale / 2 →
      (update_position bounds scale position velocity).y =
        bounds.half_height + maxElement3 scale / 2) ∧
    (-bounds.half_width - maxElement3 scale / 2 ≤ (position + velocity).x →
      (position + velocity).x ≤ bounds.half_width + maxElement3 scale / 2 →
      (update_position bounds scale position velocity).x =
        (position + velocity).x) ∧
    (-bounds.half_height - maxElement3 scale / 2 ≤ (position + velocity).y →
      (position + velocity).y ≤ bounds.half_height + maxElement3 scale / 2 →
      (update_position bounds scale position velocity).y =
        (position + velocity).y) := by
  unfold update_position
  refine ⟨fun h => ?_, fun h => ?_, fun h => ?_, fun h => ?_,
    fun h h2 => ?_, fun h h2 => ?_⟩ <;>
  · dsimp only
    split_ifs <;> first | rfl | linarith

/-- Witness for `update_position_wraps`: the starship (scale 50) at x = 600
moving right by 100 crosses the right band edge 640 + 25 and wraps to exactly
-640 - 25 = -665. -/
theorem update_position_wraps_witness :
    (update_position ⟨640, 360⟩ (50, 50, 50) ⟨600, 0⟩ ⟨100, 0⟩).x = -665 := by
  have h := (update_position_wraps ⟨640, 360⟩ (50, 50, 50) ⟨600, 0⟩ ⟨100, 0⟩
    (by norm_num) (by norm_num) (by norm_num [maxElement3])).1
    (by norm_num [maxElement3])
  rw [h]
  norm_num [maxElement3]

/-- C9: for every pre-state (including positions already outside the play
band) with nonnegative half-extents and transform scale — true of every
entity of the game — one `update_position` step leaves the x coordinate
inside `[-half_width - half_scale, half_width + half_scale]` and the y
coordinate inside `[-half_height - half_scale, half_height + half_scale]`:
the wrap branches can never place a coordinate outside the band. -/
theorem update_position_in_band (bounds : ScreenBounds) (scale : ℚ × ℚ × ℚ)
    (position velocity : Vec2)
    (hw : 0 ≤ bounds.half_width) (hh : 0 ≤ bounds.half_height)
    (hs : 0 ≤ maxElement3 scale) :
    (-bounds.half_width - maxElement3 scale / 2 ≤
        (update_position bounds scale position velocity).x ∧
      (update_position bounds scale position velocity).x ≤
        bounds.half_width + maxElement3 scale / 2) ∧
    (-bounds.half_height - maxElement3 scale / 2 ≤
        (update_position bounds scale position velocity).y ∧
      (update_position bounds scale position velocity).y ≤
        bounds.half_height + maxElement3 scale / 2) := by
  unfold update_position
  refine ⟨⟨?_, ?_⟩, ?_, ?_⟩ <;>
  · dsimp only
    split_ifs <;> linarith

/-- Witness for `update_position_in_band`: an asteroid (scale 100) far
outside the band is brought back inside it by one step. -/
theorem update_position_in_band_witness :
    (-(640 : ℚ) - maxElement3 (100, 100, 100) / 2 ≤
        (update_position ⟨640, 360⟩ (100, 100, 100) ⟨10000, -10000⟩ ⟨3, 3⟩).x ∧
      (update_position ⟨640, 360⟩ (100, 100, 100) ⟨10000, -10000⟩ ⟨3, 3⟩).x ≤
        640 + maxElement3 (100, 100, 100) / 2) ∧
    (-(360 : ℚ) - maxElement3 (100, 100, 100) / 2 ≤
        (update_position ⟨640, 360⟩ (100, 100, 100) ⟨10000, -10000⟩ ⟨3, 3⟩).y ∧
      (update_position ⟨640, 360⟩ (100, 100, 100) ⟨10000, -10000⟩ ⟨3, 3⟩).y ≤
        360 + maxElement3 (100, 100, 100) / 2) :=
  update_position_in_band ⟨640, 360⟩ (100, 100, 100) ⟨10000, -10000⟩ ⟨3, 3⟩
    (by norm_num) (by norm_num) (by norm_num [maxElement3])

/-- C10: with the keyboard up-arrow not pressed, `decelerate_starship`
multiplies the ship velocity by exactly `1 - 0.01 = 0.99`; the speed never
increases under deceleration, and a zero velocity remains exactly zero. -/
theorem decelerate_starship_friction (velocity : Vec2) :
    decelerate_starship false velocity = Vec2.smul (99 / 100) velocity ∧
    Real.sqrt ((normSq (decelerate_starship false velocity) : ℝ)) ≤
      Real.sqrt ((normSq velocity : ℝ)) ∧
    (velocity = Vec2.zero → decelerate_starship false velocity = Vec2.zero) := by
  have heq : decelerate_starship false velocity =
      Vec2.smul (99 / 100) velocity := by
    show Vec2.smul (1 - STARSHIP_DECELERATION) velocity = _
    norm_num [STARSHIP_DECELERATION]
  refine ⟨heq, ?_, fun h => by
    subst h
    show Vec2.smul (1 - STARSHIP_DECELERATION) Vec2.zero = Vec2.zero
    simp [Vec2.smul, Vec2.zero]⟩
  apply Real.sqrt_le_sqrt
  have : normSq (decelerate_starship false velocity) ≤ normSq velocity := by
    rw [heq, normSq_smul]
    nlinarith [normSq_nonneg velocity]
  exact_mod_cast this

/-- Witness for `decelerate_starship_friction`: the zero velocity stays
exactly zero under the friction step. -/
theorem decelerate_starship_friction_witness :
    decelerate_starship false Vec2.zero = Vec2.zero :=
  (decelerate_starship_friction Vec2.zero).2.2 rfl

/-- C3 counterexample: on a tick where the keyboard up-arrow is released but
the virtual (touch) up is held, the merged `up_pressed` signal is true, yet
`decelerate_starship` still rescales a nonzero ship velocity, because its
guard reads only the native keyboard state — so "merged up_pressed true ⇒ no
deceleration" fails on the code. -/
theorem deceleration_despite_virtual_up :
    up_pressed ⟨false, false, false, false⟩
        (some ⟨false, false, true, false⟩) = true ∧
    decelerate_starship
        (KeyboardState.mk false false false false).arrow_up ⟨1, 0⟩ ≠ ⟨1, 0⟩ := by
  refine ⟨rfl, ?_⟩
  show Vec2.smul (1 - STARSHIP_DECELERATION) ⟨1, 0⟩ ≠ ⟨1, 0⟩
  norm_num [Vec2.smul, STARSHIP_DECELERATION, Vec2.mk.injEq]

/-- C3 (amended): deceleration is keyed on the native keyboard up-arrow
only.  Whenever the keyboard up-arrow is not pressed the ship velocity is
multiplied by `1 - DECELERATION` — including on ticks where the merged
`up_pressed` is true through virtual input — and whenever the keyboard
up-arrow is pressed no deceleration is applied.  In particular a false
merged `up_pressed` still implies the friction step. -/
theorem decelerate_keyed_on_keyboard (keys : KeyboardState)
    (mobile : Option MobileInputState) (v : Vec2) :
    (keys.arrow_up = false →
      decelerate_starship keys.arrow_up v =
        Vec2.smul (1 - STARSHIP_DECELERATION) v) ∧
    (keys.arrow_up = true → decelerate_starship keys.arrow_up v = v) ∧
    (up_pressed keys mobile = false →
      decelerate_starship keys.arrow_up v =
        Vec2.smul (1 - STARSHIP_DECELERATION) v) := by
  refine ⟨fun h => by rw [h]; rfl, fun h => by rw [h]; rfl, fun h => ?_⟩
  have hk : keys.arrow_up = false := by
    cases hu : keys.arrow_up
    · rfl
    · rw [up_pressed.eq_def, hu] at h
      simp at h
  rw [hk]
  rfl

/-- Witness for `decelerate_keyed_on_keyboard`: keyboard up-arrow released
(virtual up held), so the velocity (1, 0) is rescaled by `1 - DECELERATION`. -/
theorem decelerate_keyed_on_keyboard_witness :
    decelerate_starship false ⟨1, 0⟩ =
      Vec2.smul (1 - STARSHIP_DECELERATION) ⟨1, 0⟩ :=
  (decelerate_keyed_on_keyboard ⟨false, false, false, false⟩
    (some ⟨false, false, true, false⟩) ⟨1, 0⟩).1 rfl

/-- C8: `remove_bullet` despawns a live bullet exactly when its distance from
its spawn point exceeds `BULLET_DISTANCE` = 0.8 × 720 = 576.  Since the
system runs every tick, a bullet is despawned on the first tick this distance
exceeds 576 and is not despawned by the range check on any tick where the
distance is at most 576. -/
theorem remove_bullet_iff (bullets : List BulletB) (b : BulletB)
    (hb : b ∈ bullets) :
    b ∈ remove_bullet bullets ↔
      Real.sqrt ((normSq (b.start - b.position) : ℝ)) > (BULLET_DISTANCE : ℝ) := by
  have hbd : (0 : ℝ) ≤ (BULLET_DISTANCE : ℝ) := by
    norm_num [BULLET_DISTANCE, VIEWPORT_HEIGHT]
  rw [remove_bullet, List.mem_filter, gt_iff_lt, Real.lt_sqrt hbd]
  constructor
  · rintro ⟨-, h⟩
    rw [bullet_out_of_range, decide_eq_true_eq] at h
    exact_mod_cast h
  · intro h
    refine ⟨hb, ?_⟩
    rw [bullet_out_of_range, decide_eq_true_eq]
    exact_mod_cast h

/-- Witness for `remove_bullet_iff`: a bullet spawned at the origin now at
(0, 600) — traveled distance 600 > 576 — is despawned exactly when the
square-root condition holds. -/
theorem remove_bullet_iff_witness :
    ((⟨⟨0, 0⟩, ⟨0, 600⟩⟩ : BulletB) ∈
        remove_bullet [⟨⟨0, 0⟩, ⟨0, 600⟩⟩]) ↔
      Real.sqrt ((normSq ((⟨⟨0, 0⟩, ⟨0, 600⟩⟩ : BulletB).start -
          (⟨⟨0, 0⟩, ⟨0, 600⟩⟩ : BulletB).position) : ℝ)) >
        (BULLET_DISTANCE : ℝ) :=
  remove_bullet_iff [⟨⟨0, 0⟩, ⟨0, 600⟩⟩] ⟨⟨0, 0⟩, ⟨0, 600⟩⟩ (by simp)

/-- C5: if the ship velocity after the thrust increment has length greater
than `MAX_VELOCITY` = 10, the post-clamp velocity has length exactly 10 and
is a positive scalar multiple of (points in the same direction as) the
pre-clamp velocity; and a zero pre-clamp velocity is left exactly at zero —
the guard cannot fire on it, so the zero vector is never normalized. -/
theorem clamp_velocity_correct (v : Vec2) (w : ℝ × ℝ)
    (hc : clamp_velocity v w) :
    (Real.sqrt ((normSq v : ℝ)) > (STARSHIP_MAX_VELOCITY : ℝ) →
      Real.sqrt (w.1 * w.1 + w.2 * w.2) = (STARSHIP_MAX_VELOCITY : ℝ) ∧
      ∃ c : ℝ, 0 < c ∧ w = (c * (v.x : ℝ), c * (v.y : ℝ))) ∧
    (v = Vec2.zero → w = (0, 0)) := by
  constructor
  · intro hv
    have h10 : (0 : ℝ) < (STARSHIP_MAX_VELOCITY : ℝ) := by
      norm_num [STARSHIP_MAX_VELOCITY]
    have hsqrt_pos : 0 < Real.sqrt ((normSq v : ℝ)) := lt_trans h10 hv
    have hs_pos : (0 : ℝ) < ((normSq v : ℚ) : ℝ) := Real.sqrt_pos.mp hsqrt_pos
    rcases hc with ⟨-, u, hu, hw⟩ | ⟨hng, -⟩
    · rcases hu with ⟨hvz, -⟩ | ⟨-, hu⟩
      · rw [hvz] at hs_pos
        norm_num [Vec2.zero, normSq] at hs_pos
      · subst hu
        subst hw
        have hss : Real.sqrt ((normSq v : ℚ) : ℝ) *
            Real.sqrt ((normSq v : ℚ) : ℝ) = ((normSq v : ℚ) : ℝ) :=
          Real.mul_self_sqrt hs_pos.le
        have hsqrt_ne : Real.sqrt ((normSq v : ℚ) : ℝ) ≠ 0 := ne_of_gt hsqrt_pos
        have hvxy : (v.x : ℝ) * v.x + (v.y : ℝ) * v.y = ((normSq v : ℚ) : ℝ) := by
          push_cast [normSq]
          ring
        have key : ((STARSHIP_MAX_VELOCITY : ℝ) *
            ((v.x : ℝ) / Real.sqrt ((normSq v : ℚ) : ℝ))) *
            ((STARSHIP_MAX_VELOCITY : ℝ) *
            ((v.x : ℝ) / Real.sqrt ((normSq v : ℚ) : ℝ))) +
            ((STARSHIP_MAX_VELOCITY : ℝ) *
            ((v.y : ℝ) / Real.sqrt ((normSq v : ℚ) : ℝ))) *
            ((STARSHIP_MAX_VELOCITY : ℝ) *
            ((v.y : ℝ) / Real.sqrt ((normSq v : ℚ) : ℝ))) =
            (STARSHIP_MAX_VELOCITY : ℝ) * (STARSHIP_MAX_VELOCITY : ℝ) := by
          field_simp
          nlinarith [hvxy, hss]
        constructor
        · show Real.sqrt _ = _
          dsimp only
          rw [key]
          exact Real.sqrt_mul_self h10.le
        · refine ⟨(STARSHIP_MAX_VELOCITY : ℝ) / Real.sqrt ((normSq v : ℚ) : ℝ),
            div_pos h10 hsqrt_pos, ?_⟩
          rw [Prod.mk.injEq]
          constructor <;> ring
    · exact absurd hv hng
  · intro hz
    rcases hc with ⟨hgt, -⟩ | ⟨-, hw⟩
    · rw [hz] at hgt
      norm_num [Vec2.zero, normSq, STARSHIP_MAX_VELOCITY] at hgt
    · rw [hw, hz]
      norm_num [Vec2.zero]

/-- Witness for `clamp_velocity_correct`: the post-thrust velocity (30, 40)
has length 50 > 10 and is clamped to (6, 8), of length exactly 10 and in the
same direction. -/
theorem clamp_velocity_correct_witness :
    Real.sqrt ((6 : ℝ) * 6 + 8 * 8) = (STARSHIP_MAX_VELOCITY : ℝ) ∧
    ∃ c : ℝ, 0 < c ∧ ((6 : ℝ), (8 : ℝ)) = (c * ((30 : ℚ) : ℝ), c * ((40 : ℚ) : ℝ)) := by
  have h2500 : ((normSq ⟨30, 40⟩ : ℚ) : ℝ) = 2500 := by
    norm_num [normSq]
  have hsq : Real.sqrt ((normSq ⟨30, 40⟩ : ℚ) : ℝ) = 50 := by
    rw [h2500, show (2500 : ℝ) = 50 ^ 2 by norm_num, Real.sqrt_sq (by norm_num)]
  have hv : Real.sqrt ((normSq (⟨30, 40⟩ : Vec2) : ℚ) : ℝ) >
      (STARSHIP_MAX_VELOCITY : ℝ) := by
    rw [hsq]
    norm_num [STARSHIP_MAX_VELOCITY]
  have hc : clamp_velocity ⟨30, 40⟩ (6, 8) := by
    refine Or.inl ⟨hv, ((3 / 5 : ℝ), (4 / 5 : ℝ)), Or.inr ⟨?_, ?_⟩, ?_⟩
    · intro h
      rw [Vec2.zero, Vec2.mk.injEq] at h
      norm_num at h
    · rw [hsq, Prod.mk.injEq]
      norm_num
    · rw [Prod.mk.injEq]
      norm_num [STARSHIP_MAX_VELOCITY]
  exact (clamp_velocity_correct ⟨30, 40⟩ (6, 8) hc).1 hv

/-- C2 counterexample: at the asteroid spawn-velocity site
(`get_random_point(&bounds).normalize() * ASTEROID_VELOCITY`), normalizing a
zero-length random point yields NaN, which propagates into the stored
velocity — it does not yield the zero vector required by the claimed
policy. -/
theorem asteroid_spawn_velocity_nan_on_zero :
    asteroid_spawn_velocity Vec2.zero none ∧
    ¬ asteroid_spawn_velocity Vec2.zero (some ((0 : ℝ), (0 : ℝ))) := by
  constructor
  · exact Or.inr ⟨Or.inl ⟨rfl, rfl⟩, rfl⟩
  · rintro (⟨d, hd, -⟩ | ⟨-, hr⟩)
    · rcases hd with ⟨-, hno⟩ | ⟨hne, -⟩
      · exact Option.noConfusion hno
      · exact hne rfl
    · exact Option.noConfusion hr

/-- C2 (amended): the zero-vector policy holds at the ship-velocity clamp —
`normalize_or_zero` maps the zero vector to the zero vector — and the bullet
spawn direction is never zero-length (it is the sin/cos unit vector), so its
normalization is always defined; but the asteroid spawn velocity direction
uses plain `normalize`, which yields NaN (`none`), not the zero vector, on a
zero-length random point, and a defined result exactly on nonzero draws. -/
theorem normalize_zero_policy :
    (∀ w : ℝ × ℝ, normalize_or_zero Vec2.zero w → w = (0, 0)) ∧
    (∀ (θ : ℝ) (d : ℝ × ℝ) (r : Option (ℝ × ℝ)),
      starship_direction θ d → glam_normalize_r d r → r ≠ none) ∧
    (∀ r : Option (ℝ × ℝ), glam_normalize Vec2.zero r → r = none) ∧
    (∀ p : Vec2, p ≠ Vec2.zero → ∀ r : Option (ℝ × ℝ),
      glam_normalize p r → r ≠ none) := by
  refine ⟨?_, ?_, ?_, ?_⟩
  · rintro w (⟨-, hw⟩ | ⟨hne, -⟩)
    · exact hw
    · exact absurd rfl hne
  · rintro θ d r hd (⟨hz, -⟩ | ⟨-, hr⟩)
    · rw [hd, Prod.mk.injEq] at hz
      have := Real.sin_sq_add_cos_sq (θ + Real.pi / 2)
      rw [hz.2, hz.1] at this
      norm_num at this
    · rw [hr]
      exact Option.some_ne_none _
  · rintro r (⟨-, hr⟩ | ⟨hne, -⟩)
    · exact hr
    · exact absurd rfl hne
  · rintro p hp r (⟨hz, -⟩ | ⟨-, hr⟩)
    · exact absurd hz hp
    · rw [hr]
      exact Option.some_ne_none _

/-- Witness for `normalize_zero_policy`: the nonzero draw (1, 0) normalizes
to a defined (non-NaN) direction. -/
theorem normalize_zero_policy_witness :
    (some ((1 : ℝ), (0 : ℝ)) : Option (ℝ × ℝ)) ≠ none := by
  refine normalize_zero_policy.2.2.2 ⟨1, 0⟩ ?_ (some (1, 0)) (Or.inr ⟨?_, ?_⟩)
  · intro h
    rw [Vec2.zero, Vec2.mk.injEq] at h
    norm_num at h
  · intro h
    rw [Vec2.zero, Vec2.mk.injEq] at h
    norm_num at h
  · norm_num [normSq, Real.sqrt_one]

/-- C7: on a bullet–asteroid hit (the distance between their centers is below
half the bullet's visual size plus half the asteroid's visual size), the
emitted commands despawn both the bullet and the asteroid and spawn exactly
two children of the next tier down at the destroyed asteroid's position when
its tier is Big or Medium, and no children when its tier is Small. -/
theorem bullet_asteroid_hit_outcome (b : BulletC) (a : AsteroidC)
    (d1 d2 : Vec2)
    (hit : Real.sqrt ((normSq (b.position - a.position) : ℝ)) <
      ((maxElement3 b.scale / 2 + maxElement3 a.scale / 2 : ℚ) : ℝ)) :
    bullet_asteroid_hit b a = true ∧
    (a.size = AsteroidSize.Big →
      hit_commands b a d1 d2 =
        [Cmd.despawn_bullet b, Cmd.despawn_asteroid a,
         Cmd.spawn_asteroid AsteroidSize.Medium a.position d1,
         Cmd.spawn_asteroid AsteroidSize.Medium a.position d2]) ∧
    (a.size = AsteroidSize.Medium →
      hit_commands b a d1 d2 =
        [Cmd.despawn_bullet b, Cmd.despawn_asteroid a,
         Cmd.spawn_asteroid AsteroidSize.Small a.position d1,
         Cmd.spawn_asteroid AsteroidSize.Small a.position d2]) ∧
    (a.size = AsteroidSize.Small →
      hit_commands b a d1 d2 =
        [Cmd.despawn_bullet b, Cmd.despawn_asteroid a]) := by
  have hd0 : (0 : ℝ) ≤ ((normSq (b.position - a.position) : ℚ) : ℝ) := by
    exact_mod_cast normSq_nonneg _
  have h1 := mul_self_lt_mul_self (Real.sqrt_nonneg _) hit
  rw [Real.mul_self_sqrt hd0] at h1
  refine ⟨?_, fun hs => ?_, fun hs => ?_, fun hs => ?_⟩
  · rw [bullet_asteroid_hit, decide_eq_true_eq, pow_two]
    exact_mod_cast h1
  · simp [hit_commands, asteroid_new_size, hs]
  · simp [hit_commands, asteroid_new_size, hs]
  · simp [hit_commands, asteroid_new_size, hs]

/-- Witness for `bullet_asteroid_hit_outcome`: a bullet (scale 5) and a Big
asteroid (scale 100) at the same position collide, and the hit despawns both
and spawns exactly two Medium children at that position. -/
theorem bullet_asteroid_hit_outcome_witness :
    bullet_asteroid_hit ⟨⟨0, 0⟩, (5, 5, 5)⟩
        ⟨AsteroidSize.Big, ⟨0, 0⟩, (100, 100, 100)⟩ = true ∧
    hit_commands ⟨⟨0, 0⟩, (5, 5, 5)⟩
        ⟨AsteroidSize.Big, ⟨0, 0⟩, (100, 100, 100)⟩ ⟨1, 0⟩ ⟨0, 1⟩ =
      [Cmd.despawn_bullet ⟨⟨0, 0⟩, (5, 5, 5)⟩,
       Cmd.despawn_asteroid ⟨AsteroidSize.Big, ⟨0, 0⟩, (100, 100, 100)⟩,
       Cmd.spawn_asteroid AsteroidSize.Medium ⟨0, 0⟩ ⟨1, 0⟩,
       Cmd.spawn_asteroid AsteroidSize.Medium ⟨0, 0⟩ ⟨0, 1⟩] := by
  have h := bullet_asteroid_hit_outcome ⟨⟨0, 0⟩, (5, 5, 5)⟩
    ⟨AsteroidSize.Big, ⟨0, 0⟩, (100, 100, 100)⟩ ⟨1, 0⟩ ⟨0, 1⟩
    (by norm_num [normSq, maxElement3, Real.sqrt_zero])
  exact ⟨h.1, h.2.1 rfl⟩

/-- C1: after a tick in which `reset_game` processes a pending reset signal,
the entity store contains exactly one starship — rotation angle 0, zero
velocity, origin position — exactly six asteroids all of tier Big, and zero
bullets, for every pre-reset entity population, bounds and random draws. -/
theorem reset_game_invariant (signals : List Unit) (bounds : ScreenBounds)
    (rng : ℕ → ℚ) (store : Store) (h : signals ≠ []) :
    (reset_game signals bounds rng store).starships =
      [⟨0, Vec2.zero, Vec2.zero⟩] ∧
    (reset_game signals bounds rng store).bullets = [] ∧
    (reset_game signals bounds rng store).asteroids.length = 6 ∧
    ∀ a ∈ (reset_game signals bounds rng store).asteroids,
      a.size = AsteroidSize.Big := by
  cases signals with
  | nil => exact absurd rfl h
  | cons s rest =>
    refine ⟨rfl, rfl, by simp [reset_game], ?_⟩
    intro a ha
    simp only [reset_game, List.mem_map, List.mem_range] at ha
    obtain ⟨i, -, rfl⟩ := ha
    rfl

/-- Witness for `reset_game_invariant`: resetting a junk store (one rotated
moving starship, one bullet, one Small asteroid) rebuilds the initial
scene. -/
theorem reset_game_invariant_witness :
    (reset_game [()] ScreenBounds.fallback (fun _ => 1 / 2)
        ⟨[⟨5, ⟨1, 2⟩, ⟨3, 4⟩⟩], [⟨⟨0, 0⟩, ⟨9, 9⟩⟩],
         [⟨AsteroidSize.Small, ⟨1, 1⟩, ⟨2, 2⟩⟩]⟩).starships =
      [⟨0, Vec2.zero, Vec2.zero⟩] ∧
    (reset_game [()] ScreenBounds.fallback (fun _ => 1 / 2)
        ⟨[⟨5, ⟨1, 2⟩, ⟨3, 4⟩⟩], [⟨⟨0, 0⟩, ⟨9, 9⟩⟩],
         [⟨AsteroidSize.Small, ⟨1, 1⟩, ⟨2, 2⟩⟩]⟩).bullets = [] ∧
    (reset_game [()] ScreenBounds.fallback (fun _ => 1 / 2)
        ⟨[⟨5, ⟨1, 2⟩, ⟨3, 4⟩⟩], [⟨⟨0, 0⟩, ⟨9, 9⟩⟩],
         [⟨AsteroidSize.Small, ⟨1, 1⟩, ⟨2, 2⟩⟩]⟩).asteroids.length = 6 ∧
    ∀ a ∈ (reset_game [()] ScreenBounds.fallback (fun _ => 1 / 2)
        ⟨[⟨5, ⟨1, 2⟩, ⟨3, 4⟩⟩], [⟨⟨0, 0⟩, ⟨9, 9⟩⟩],
         [⟨AsteroidSize.Small, ⟨1, 1⟩, ⟨2, 2⟩⟩]⟩).asteroids,
      a.size = AsteroidSize.Big :=
  reset_game_invariant [()] ScreenBounds.fallback (fun _ => 1 / 2)
    ⟨[⟨5, ⟨1, 2⟩, ⟨3, 4⟩⟩], [⟨⟨0, 0⟩, ⟨9, 9⟩⟩],
     [⟨AsteroidSize.Small, ⟨1, 1⟩, ⟨2, 2⟩⟩]⟩ (by simp)

/-- C4, the code evaluated at the failing schedule: the `Update` schedule's
only declared ordering constraint is
`sync_translate_transform.after(update_position)`.  The registration order is
one valid execution order, but `badOrder` — in which both collision checks
and the reset run before motion integration, and motion integration runs
before control-input processing — is equally valid: the scheduler is free to
violate both control-before-integrate and integrate-before-collide on any
tick. -/
theorem update_schedule_order_not_enforced :
    validExecutionOrder updateSystems ∧
    validExecutionOrder badOrder ∧
    List.indexOf Sys.detect_bullet_asteroid_collision badOrder <
      List.indexOf Sys.update_position badOrder ∧
    List.indexOf Sys.detect_starship_asteroid_collision badOrder <
      List.indexOf Sys.update_position badOrder ∧
    List.indexOf Sys.update_position badOrder <
      List.indexOf Sys.keyboard_events badOrder := by
  refine ⟨?_, ?_, by decide, by decide, by decide⟩ <;>
  · unfold validExecutionOrder
    refine ⟨by decide, ?_⟩
    intro c hc
    rw [updateConstraints, List.mem_singleton] at hc
    subst hc
    decide

end Asteroids
